import Mathlib

/-
Verification of the client-side vessel tracker (src/static/js/app.js,
class VesselTracker) against its natural-language specification.

The JavaScript source is shallowly embedded: JS numbers are rationals,
the coordinate fields (which may be absent, null, NaN, infinite, or
non-numeric) are an explicit JSVal type, JS Map instances are
insertion-ordered association lists, and each stateful method of the
class becomes a pure function on an explicit TrackerState.  Rendering
side effects (Leaflet calls, innerHTML writes, console logging) are out
of the model; the data they are computed from (marker position, icon
parameters, popup fields, list rows) is retained.
-/

/-- Model of a JavaScript value as stored in the latitude / longitude
fields of an inbound vessel record: a value can be absent (undefined),
null, a finite number, NaN, an infinity, or a non-numeric string. -/
inductive JSVal where
  | undef
  | null
  | num (x : ℚ)
  | nan
  | posInf
  | negInf
  | str (s : String)
deriving DecidableEq, Repr

/-- JavaScript truthiness of a JSVal: undefined, null, 0, NaN and the
empty string are falsy, everything else is truthy. -/
def JSVal.truthy : JSVal → Bool
  | .undef => false
  | .null => false
  | .num x => decide (x ≠ 0)
  | .nan => false
  | .posInf => true
  | .negInf => true
  | .str s => decide (s ≠ "")

/-- JS loose inequality v != null: false exactly for undefined and null. -/
def jsNotNull : JSVal → Bool
  | .undef => false
  | .null => false
  | _ => true

/-- JS typeof v === 'number': true for finite numbers, NaN and the infinities. -/
def jsIsNumberType : JSVal → Bool
  | .num _ => true
  | .nan => true
  | .posInf => true
  | .negInf => true
  | _ => false

/-- JS isNaN on a value already known to be of number type. -/
def jsIsNaN : JSVal → Bool
  | .nan => true
  | _ => false

/-- JS comparison q <= v for a number-typed v (NaN compares false). -/
def jsGe (v : JSVal) (q : ℚ) : Bool :=
  match v with
  | .num x => decide (q ≤ x)
  | .posInf => true
  | .negInf => false
  | _ => false

/-- JS comparison v <= q for a number-typed v (NaN compares false). -/
def jsLe (v : JSVal) (q : ℚ) : Bool :=
  match v with
  | .num x => decide (x ≤ q)
  | .posInf => false
  | .negInf => true
  | _ => false

/-- JS idiom s || d on an optional string field: both a missing field and
the (falsy) empty string fall back to the default d. -/
def jsOrStr (v : Option String) (d : String) : String :=
  match v with
  | some s => if s = "" then d else s
  | none => d

/-- JS idiom h || 0 on an optional numeric heading: a missing heading and
the (falsy) heading 0 both yield 0, so this is getD 0. -/
def headingOr0 (h : Option ℚ) : ℚ := h.getD 0

/-- A JS Map with natural-number keys, modelled as an insertion-ordered
association list.  All reachable maps have pairwise distinct keys. -/
abbrev JMap (α : Type) := List (ℕ × α)

/-- Map.has. -/
def mapHas {α : Type} (m : JMap α) (k : ℕ) : Bool :=
  m.any (fun p => p.1 == k)

/-- Map.get, returning the first (in a well-formed map, only) entry. -/
def mapGet {α : Type} (m : JMap α) (k : ℕ) : Option α :=
  (m.find? (fun p => p.1 == k)).map Prod.snd

/-- Map.set: replace the entry in place if the key is present, otherwise
append a new entry (JS Map preserves insertion order). -/
def mapSet {α : Type} (m : JMap α) (k : ℕ) (v : α) : JMap α :=
  if mapHas m k then m.map (fun p => if p.1 == k then (k, v) else p)
  else m ++ [(k, v)]

/-- Map.values in iteration (insertion) order. -/
def mapValues {α : Type} (m : JMap α) : List α := m.map Prod.snd

/-- An inbound vessel record as delivered by the upstream pipeline.
Optional display strings are Option String; the two coordinates keep the
full range of JS values; speed and heading are optional numbers. -/
structure VesselRecord where
  mmsi : ℕ
  name : Option String
  vessel_type : Option String
  destination : Option String
  nearby_port : Option String
  latitude : JSVal
  longitude : JSVal
  speed : Option ℚ
  heading : Option ℚ
  status_category : Option String
  navigational_status : Option String
deriving DecidableEq, Repr

/-- The status color table of initMap (statusColors). -/
def statusColors : String → Option String
  | "underway" => some "#22c55e"
  | "anchored" => some "#3b82f6"
  | "moored" => some "#ef4444"
  | "restricted" => some "#eab308"
  | "special" => some "#a855f7"
  | "unknown" => some "#6b7280"
  | _ => none

/-- The status symbol table of initMap (statusSymbols). -/
def statusSymbols : String → Option String
  | "underway" => some "🚢"
  | "anchored" => some "⚓"
  | "moored" => some "🔴"
  | "restricted" => some "⚠️"
  | "special" => some "🎣"
  | "unknown" => some "❓"
  | _ => none

/-- statusColors lookup with the source's fallback statusColors.unknown. -/
def colorOf (s : String) : String := (statusColors s).getD "#6b7280"

/-- statusSymbols lookup with the source's fallback statusSymbols.unknown. -/
def symbolOf (s : String) : String := (statusSymbols s).getD "❓"

/-- The data content of the DivIcon built by createVesselIcon: fill
color, pixel size, stroke width, rotation angle and stroke color. -/
structure VesselIcon where
  color : String
  size : ℕ
  strokeWidth : ℕ
  rotation : ℚ
  stroke : String
deriving DecidableEq, Repr

/-- createVesselIcon(heading, statusCategory, isSelected): selection
doubles as a size 24 vs 18 and stroke width 3 vs 2 switch; rotation is
the JS expression heading || 0. -/
def createVesselIcon (heading : ℚ) (statusCategory : String) (isSelected : Bool) : VesselIcon :=
  { color := colorOf statusCategory
  , size := if isSelected then 24 else 18
  , strokeWidth := if isSelected then 3 else 2
  , rotation := if heading = 0 then 0 else heading
  , stroke := if isSelected then "#ffffff" else "rgba(255,255,255,0.9)" }

/-- The data content of the popup HTML built by createPopupContent: every
interpolated value, with the optional numbers kept as options (the source
renders some q as toFixed text and none as the literal N/A). -/
structure PopupContent where
  name : String
  vesselType : String
  destination : String
  speed : Option ℚ
  heading : Option ℚ
  nearbyPort : String
  mmsi : ℕ
  statusName : String
  statusColor : String
  statusSymbol : String
deriving DecidableEq, Repr

/-- createPopupContent(vessel). -/
def createPopupContent (vessel : VesselRecord) : PopupContent :=
  { name := jsOrStr vessel.name "Unknown"
  , vesselType := jsOrStr vessel.vessel_type "Unknown"
  , destination := jsOrStr vessel.destination "Unknown"
  , speed := vessel.speed
  , heading := vessel.heading
  , nearbyPort := jsOrStr vessel.nearby_port "N/A"
  , mmsi := vessel.mmsi
  , statusName := jsOrStr vessel.navigational_status "Unknown"
  , statusColor := colorOf (jsOrStr vessel.status_category "unknown")
  , statusSymbol := symbolOf (jsOrStr vessel.status_category "unknown") }

/-- A map marker: owning vessel id, last position passed to setLatLng,
current icon and current popup content. -/
structure Marker where
  mmsi : ℕ
  lat : JSVal
  lon : JSVal
  icon : VesselIcon
  popup : PopupContent
deriving DecidableEq, Repr

/-- The mutable state of the VesselTracker instance: the vessel registry,
the marker map, the selected vessel id, and the update-rate counters. -/
structure TrackerState where
  vessels : JMap VesselRecord
  markers : JMap Marker
  selectedVesselMMSI : Option ℕ
  statsCount : ℕ
  statsLastReset : ℚ
deriving DecidableEq, Repr

/-- The state of a fresh tracker (constructor). -/
def initialState : TrackerState :=
  { vessels := []
  , markers := []
  , selectedVesselMMSI := none
  , statsCount := 0
  , statsLastReset := 0 }

/-- The inline coordinate-validity test of processBatchUpdate: both
coordinates non-null, of number type, not NaN, and within
latitude range plus-minus 90 and longitude range plus-minus 180. -/
def isPlottable (vessel : VesselRecord) : Bool :=
  jsNotNull vessel.latitude && jsNotNull vessel.longitude &&
  jsIsNumberType vessel.latitude && jsIsNumberType vessel.longitude &&
  !jsIsNaN vessel.latitude && !jsIsNaN vessel.longitude &&
  jsGe vessel.latitude (-90) && jsLe vessel.latitude 90 &&
  jsGe vessel.longitude (-180) && jsLe vessel.longitude 180

/-- updateMarker(vessel): reposition, re-icon and re-popup an existing
marker, or create one (the per-element body of updateMarkersBatch is
textually identical to this method in the source, so it is shared). -/
def updateMarker (st : TrackerState) (vessel : VesselRecord) : TrackerState :=
  let mmsi := vessel.mmsi
  let statusCategory := jsOrStr vessel.status_category "unknown"
  let heading := headingOr0 vessel.heading
  let isSelected := st.selectedVesselMMSI == some mmsi
  match mapGet st.markers mmsi with
  | some marker =>
    let updated : Marker :=
      { marker with
        lat := vessel.latitude
      , lon := vessel.longitude
      , icon := createVesselIcon heading statusCategory isSelected
      , popup := createPopupContent vessel }
    { st with markers := mapSet st.markers mmsi updated }
  | none =>
    let created : Marker :=
      { mmsi := mmsi
      , lat := vessel.latitude
      , lon := vessel.longitude
      , icon := createVesselIcon heading statusCategory isSelected
      , popup := createPopupContent vessel }
    { st with markers := mapSet st.markers mmsi created }

/-- updateMarkersBatch(vessels): apply the shared marker update to each
record in order. -/
def updateMarkersBatch (st : TrackerState) (vessels : List VesselRecord) : TrackerState :=
  vessels.foldl updateMarker st

/-- processBatchUpdate(vessels): upsert every record into the registry,
partition on the coordinate test, and reconcile markers for the
plottable subset.  The source interleaves the upsert and the partition
in one forEach; since the coordinate test reads only the record, that
is rendered as an upsert fold followed by a filter. -/
def processBatchUpdate (st : TrackerState) (vessels : List VesselRecord) : TrackerState :=
  let st1 := vessels.foldl
    (fun s vessel => { s with vessels := mapSet s.vessels vessel.mmsi vessel }) st
  let markersToUpdate := vessels.filter isPlottable
  updateMarkersBatch st1 markersToUpdate

/-- updateVessel(vessel), the legacy single-record handler: upsert, then
update the marker only when both coordinates are truthy. -/
def updateVessel (st : TrackerState) (vessel : VesselRecord) : TrackerState :=
  let st1 := { st with vessels := mapSet st.vessels vessel.mmsi vessel }
  if vessel.latitude.truthy && vessel.longitude.truthy then updateMarker st1 vessel
  else st1

/-- The marker.setIcon mutation: replace the icon of the marker stored
under key k, a no-op when no such marker exists. -/
def setMarkerIcon (st : TrackerState) (k : ℕ) (icon : VesselIcon) : TrackerState :=
  match mapGet st.markers k with
  | some m => { st with markers := mapSet st.markers k { m with icon := icon } }
  | none => st

/-- selectVessel(mmsi): record the new selection; when the newly selected
vessel exists and has truthy coordinates, restore the previous selected
marker to its unselected icon and apply the selected icon to the new
vessel's marker.  The restore is guarded by the JS truthiness of
previousSelection, so besides null (none) it also skips the falsy id 0.
The zoomToShowLayer / setView / openPopup calls are map-view effects
outside the state model. -/
def selectVessel (st : TrackerState) (mmsi : ℕ) : TrackerState :=
  let previousSelection := st.selectedVesselMMSI
  let st0 := { st with selectedVesselMMSI := some mmsi }
  match mapGet st0.vessels mmsi with
  | some vessel =>
    if vessel.latitude.truthy && vessel.longitude.truthy then
      let st1 :=
        match previousSelection with
        | some prev =>
          if prev != 0 && mapHas st0.markers prev then
            match mapGet st0.vessels prev with
            | some prevVessel =>
              setMarkerIcon st0 prev
                (createVesselIcon (headingOr0 prevVessel.heading)
                  (jsOrStr prevVessel.status_category "unknown") false)
            | none => st0
          else st0
        | none => st0
      if mapHas st1.markers mmsi then
        setMarkerIcon st1 mmsi
          (createVesselIcon (headingOr0 vessel.heading)
            (jsOrStr vessel.status_category "unknown") true)
      else st1
    else st0
  | none => st0

/-- Does the character sequence s start with the sequence t. -/
def startsWithSeq : List Char → List Char → Bool
  | _, [] => true
  | [], _ :: _ => false
  | a :: as, b :: bs => a == b && startsWithSeq as bs

/-- Does the character sequence s contain t as a contiguous subsequence
(the semantics of JS String.includes). -/
def hasSubSeq : List Char → List Char → Bool
  | [], t => t.isEmpty
  | s :: ss, t => startsWithSeq (s :: ss) t || hasSubSeq ss t

/-- JS s.includes(t). -/
def strIncludes (s t : String) : Bool := hasSubSeq s.data t.data

/-- JS s.toLowerCase(), character by character. -/
def lowerStr (s : String) : String := String.mk (s.data.map Char.toLower)

/-- matchesSearch(vessel, searchTerm): case-insensitive substring match
against name, stringified mmsi, destination, type and nearby port; the
JS guard (vessel.mmsi || '') turns the falsy id 0 into the empty string. -/
def matchesSearch (vessel : VesselRecord) (searchTerm : String) : Bool :=
  let term := lowerStr searchTerm
  let name := lowerStr (jsOrStr vessel.name "")
  let mmsiStr := lowerStr (if vessel.mmsi == 0 then "" else toString vessel.mmsi)
  let destination := lowerStr (jsOrStr vessel.destination "")
  let vtype := lowerStr (jsOrStr vessel.vessel_type "")
  let location := lowerStr (jsOrStr vessel.nearby_port "")
  strIncludes name term ||
  strIncludes mmsiStr term ||
  strIncludes destination term ||
  strIncludes vtype term ||
  strIncludes location term

/-- The sort key of updateVesselList: the lowercased display name, with a
missing name replaced by Unknown.  localeCompare on these keys is
modelled as the lexicographic order on their character sequences. -/
def sortKey (v : VesselRecord) : List Char :=
  (jsOrStr v.name "Unknown").data.map Char.toLower

/-- The comparator of the vessel-list sort. -/
def nameLe (a b : VesselRecord) : Prop := sortKey a ≤ sortKey b

instance : DecidableRel nameLe :=
  fun a b => inferInstanceAs (Decidable (sortKey a ≤ sortKey b))

instance : IsTotal VesselRecord nameLe :=
  ⟨fun a b => le_total (sortKey a) (sortKey b)⟩

instance : IsTrans VesselRecord nameLe :=
  ⟨fun _ _ _ hab hbc => le_trans hab hbc⟩

/-- The data content of one rendering of the vessel list: the rows that
are displayed (in display order) and whether the showing-N-of-M overflow
footer is present. -/
structure ListRender where
  display : List VesselRecord
  hasMore : Bool
deriving DecidableEq, Repr

/-- updateVesselList(), as a pure function of the registry and the search
box value: early return on an empty registry, sort all records by
lowercased name, filter by matchesSearch when a (truthy) non-empty query
is active, display the first 150 rows, and show the overflow footer iff
more than 150 records survived the filter. -/
def updateVesselList (st : TrackerState) (searchValue : String) : ListRender :=
  if st.vessels.length == 0 then { display := [], hasMore := false }
  else
    let sortedVessels := List.insertionSort nameLe (mapValues st.vessels)
    let filteredVessels :=
      if searchValue ≠ "" then sortedVessels.filter (fun v => matchesSearch v searchValue)
      else sortedVessels
    { display := filteredVessels.take 150
    , hasMore := decide (150 < filteredVessels.length) }

/-- The per-category tallies of createClusterIcon (statusCounts). -/
structure StatusCounts where
  underway : ℕ
  anchored : ℕ
  moored : ℕ
  restricted : ℕ
  special : ℕ
  unknown : ℕ
deriving DecidableEq, Repr

/-- The zero-initialised statusCounts object. -/
def emptyStatusCounts : StatusCounts := ⟨0, 0, 0, 0, 0, 0⟩

/-- The statusCounts[status]++ step, guarded by hasOwnProperty: only the
six known categories are counted, anything else is dropped. -/
def bumpStatus (sc : StatusCounts) (status : String) : StatusCounts :=
  if status = "underway" then { sc with underway := sc.underway + 1 }
  else if status = "anchored" then { sc with anchored := sc.anchored + 1 }
  else if status = "moored" then { sc with moored := sc.moored + 1 }
  else if status = "restricted" then { sc with restricted := sc.restricted + 1 }
  else if status = "special" then { sc with special := sc.special + 1 }
  else if status = "unknown" then { sc with unknown := sc.unknown + 1 }
  else sc

/-- The tally loop of createClusterIcon: a member marker contributes iff
its mmsi is truthy (nonzero) and present in the registry; its category
is status_category || unknown. -/
def tallyStatuses (vessels : JMap VesselRecord) (memberMarkers : List Marker) : StatusCounts :=
  memberMarkers.foldl
    (fun sc marker =>
      if marker.mmsi != 0 && mapHas vessels marker.mmsi then
        match mapGet vessels marker.mmsi with
        | some vessel => bumpStatus sc (jsOrStr vessel.status_category "unknown")
        | none => sc
      else sc)
    emptyStatusCounts

/-- Object.entries(statusCounts) in insertion order. -/
def statusEntries (sc : StatusCounts) : List (String × ℕ) :=
  [("underway", sc.underway), ("anchored", sc.anchored), ("moored", sc.moored),
   ("restricted", sc.restricted), ("special", sc.special), ("unknown", sc.unknown)]

/-- The dominant-status loop: fold over the entries keeping the first
strictly greater count, starting from (unknown, 0). -/
def dominantStatus (sc : StatusCounts) : String × ℕ :=
  (statusEntries sc).foldl (fun best e => if e.2 > best.2 then e else best) ("unknown", 0)

/-- The data content of the cluster DivIcon of createClusterIcon. -/
structure ClusterIcon where
  count : ℕ
  size : ℕ
  fontSize : ℕ
  borderWidth : ℕ
  className : String
  color : String
  symbol : String
  label : String
deriving DecidableEq, Repr

/-- createClusterIcon(cluster): tally the member statuses, pick the
dominant one, pick the size tier from the member count, and render the
count label (the count, suffixed with a plus sign from 100 up). -/
def createClusterIcon (vessels : JMap VesselRecord) (memberMarkers : List Marker) : ClusterIcon :=
  let count := memberMarkers.length
  let sc := tallyStatuses vessels memberMarkers
  let dominant := (dominantStatus sc).1
  let tier : ℕ × ℕ × ℕ × String :=
    if count < 10 then (40, 14, 2, "marker-cluster-small")
    else if count < 50 then (50, 16, 3, "marker-cluster-medium")
    else if count < 100 then (60, 18, 3, "marker-cluster-large")
    else (70, 20, 4, "marker-cluster-mega")
  { count := count
  , size := tier.1
  , fontSize := tier.2.1
  , borderWidth := tier.2.2.1
  , className := tier.2.2.2
  , color := (statusColors dominant).getD "#6b7280"
  , symbol := (statusSymbols dominant).getD "❓"
  , label := if 100 ≤ count then toString count ++ "+" else toString count }

/-- trackUpdateRate(count): add the batch size to the window counter. -/
def trackUpdateRate (st : TrackerState) (count : ℕ) : TrackerState :=
  { st with statsCount := st.statsCount + count }

/-- One tick of the 1-second interval of startStatsMonitor: when at least
10 seconds have elapsed since the window start, zero the counter and
restart the window (times in milliseconds). -/
def statsTick (st : TrackerState) (now : ℚ) : TrackerState :=
  let elapsed := (now - st.statsLastReset) / 1000
  if 10 ≤ elapsed then { st with statsCount := 0, statsLastReset := now } else st

/-- The inbound socket events wired up in initSocketIO. -/
inductive InboundEvent where
  | initialVessels (vessels : List VesselRecord)
  | vesselBatchUpdate (vessels : List VesselRecord)
  | vesselUpdate (vessel : VesselRecord)
  | statsUpdate

/-- The event handlers of initSocketIO: the initial snapshot is processed
as one batch, the periodic batch is processed and then counted by
trackUpdateRate, the legacy single update goes through updateVessel, and
the stats event is only logged. -/
def handleEvent (st : TrackerState) : InboundEvent → TrackerState
  | .initialVessels vessels => processBatchUpdate st vessels
  | .vesselBatchUpdate vessels =>
      trackUpdateRate (processBatchUpdate st vessels) vessels.length
  | .vesselUpdate vessel => updateVessel st vessel
  | .statsUpdate => st

/-- The state-mutating operations of the tracker: an inbound event, a
user selection, or a stats-monitor tick. -/
inductive TrackerOp where
  | inbound (e : InboundEvent)
  | select (mmsi : ℕ)
  | tick (now : ℚ)

/-- Apply one operation. -/
def applyOp (st : TrackerState) : TrackerOp → TrackerState
  | .inbound e => handleEvent st e
  | .select mmsi => selectVessel st mmsi
  | .tick now => statsTick st now

/-- The states reachable from a fresh tracker. -/
inductive Reachable : TrackerState → Prop where
  | init : Reachable initialState
  | step {st : TrackerState} (op : TrackerOp) : Reachable st → Reachable (applyOp st op)

/-- The debounce(func, wait) wrapper, modelled on a burst of trigger
calls: the i-th entry of the list is the trigger time paired with the
tracker state just after the update that issued the trigger.  A pending
timeout scheduled at t + wait is cleared when the next trigger arrives
before it fires; otherwise the render executes and reads the state
current at that moment. -/
def debounceRenders {S : Type} (wait : ℕ) : List (ℕ × S) → List S
  | [] => []
  | [(_, s)] => [s]
  | (t, s) :: (t2, s2) :: rest =>
    if t2 < t + wait then debounceRenders wait ((t2, s2) :: rest)
    else s :: debounceRenders wait ((t2, s2) :: rest)

/-- A burst of batch updates: each batch is applied with
processBatchUpdate (which triggers the debounced list update), and the
trigger time is paired with the state after that batch. -/
def burstEvents (st : TrackerState) : List ℕ → List (List VesselRecord) → List (ℕ × TrackerState)
  | t :: ts, b :: bs =>
    let st1 := processBatchUpdate st b
    (t, st1) :: burstEvents st1 ts bs
  | _, _ => []

/-- The registry upsert of processBatchUpdate and updateVessel, as a
standalone operation on the registry map. -/
def upsertRecord (m : JMap VesselRecord) (vessel : VesselRecord) : JMap VesselRecord :=
  mapSet m vessel.mmsi vessel

/-- Upsert a sequence of records in order. -/
def upsertAll (m : JMap VesselRecord) (rs : List VesselRecord) : JMap VesselRecord :=
  rs.foldl upsertRecord m

/-- Modelled from the spec: the last record upserted with a given id in a
sequence of records, the value the registry is specified to return. -/
def lastUpsert (rs : List VesselRecord) (id : ℕ) : Option VesselRecord :=
  rs.foldl (fun acc r => if r.mmsi == id then some r else acc) none

/-- The marker value stored for a record after updateMarker: the source's
two branches (update in place vs create) differ only in whether the old
marker's fields are carried over. -/
def markerAfter (st : TrackerState) (vessel : VesselRecord) : Marker :=
  let statusCategory := jsOrStr vessel.status_category "unknown"
  let heading := headingOr0 vessel.heading
  let isSelected := st.selectedVesselMMSI == some vessel.mmsi
  match mapGet st.markers vessel.mmsi with
  | some marker =>
    { marker with
      lat := vessel.latitude
    , lon := vessel.longitude
    , icon := createVesselIcon heading statusCategory isSelected
    , popup := createPopupContent vessel }
  | none =>
    { mmsi := vessel.mmsi
    , lat := vessel.latitude
    , lon := vessel.longitude
    , icon := createVesselIcon heading statusCategory isSelected
    , popup := createPopupContent vessel }

/-- A minimal vessel record carrying only an id, coordinates and a status
category, used for concrete test inputs. -/
def mkRecord (mmsi : ℕ) (lat lon : JSVal) (status : Option String) : VesselRecord :=
  ⟨mmsi, none, none, none, none, lat, lon, none, none, status, none⟩

/-- A record sitting exactly on the equator: latitude 0 is plottable but
falsy in JS. -/
def rEquator : VesselRecord := mkRecord 7 (.num 0) (.num 50) none

/-- A record with nonzero in-range coordinates. -/
def rIsland : VesselRecord := mkRecord 7 (.num 10) (.num 20) none

/-- A later record for the same vessel id with both coordinates absent. -/
def rLost : VesselRecord := mkRecord 7 .undef .undef none

/-- Vessel A of the selection scenario. -/
def recA : VesselRecord := mkRecord 1 (.num 5) (.num 6) none

/-- Vessel B of the selection scenario. -/
def recB : VesselRecord := mkRecord 2 (.num 7) (.num 8) none

/-- Vessel A's marker, currently showing the selected icon. -/
def markerA : Marker :=
  ⟨1, .num 5, .num 6, createVesselIcon 0 "unknown" true, createPopupContent recA⟩

/-- A state in which vessel A (id 1) is selected and has a marker with
the selected icon, and vessel B (id 2) is registered with truthy
coordinates but has no marker. -/
def stSel : TrackerState :=
  { vessels := [(1, recA), (2, recB)]
  , markers := [(1, markerA)]
  , selectedVesselMMSI := some 1
  , statsCount := 0
  , statsLastReset := 0 }

/-- A state in which vessel A (id 1) is selected and has a marker with
the selected icon, and the registry knows nothing about id 2. -/
def stSelCx : TrackerState :=
  { vessels := [(1, recA)]
  , markers := [(1, markerA)]
  , selectedVesselMMSI := some 1
  , statsCount := 0
  , statsLastReset := 0 }

/-- A registry with 12 vessels: ids 1 to 7 underway, ids 8 to 12 moored. -/
def vessels12 : JMap VesselRecord :=
  [(1, mkRecord 1 (.num 1) (.num 1) (some "underway")),
   (2, mkRecord 2 (.num 1) (.num 1) (some "underway")),
   (3, mkRecord 3 (.num 1) (.num 1) (some "underway")),
   (4, mkRecord 4 (.num 1) (.num 1) (some "underway")),
   (5, mkRecord 5 (.num 1) (.num 1) (some "underway")),
   (6, mkRecord 6 (.num 1) (.num 1) (some "underway")),
   (7, mkRecord 7 (.num 1) (.num 1) (some "underway")),
   (8, mkRecord 8 (.num 1) (.num 1) (some "moored")),
   (9, mkRecord 9 (.num 1) (.num 1) (some "moored")),
   (10, mkRecord 10 (.num 1) (.num 1) (some "moored")),
   (11, mkRecord 11 (.num 1) (.num 1) (some "moored")),
   (12, mkRecord 12 (.num 1) (.num 1) (some "moored"))]

/-- One member marker per vessel of the 12-vessel registry. -/
def markers12 : List Marker :=
  (List.range 12).map (fun i =>
    ⟨i + 1, .num 1, .num 1, createVesselIcon 0 "unknown" false,
     createPopupContent (mkRecord (i + 1) (.num 1) (.num 1) none)⟩)

/-- A record with a display name, for list-rendering tests. -/
def recNamed : VesselRecord :=
  ⟨3, some "Alpha", none, none, none, .num 1, .num 2, none, none, none, none⟩

/-- A one-vessel state for list-rendering tests. -/
def stList : TrackerState :=
  { vessels := [(3, recNamed)]
  , markers := []
  , selectedVesselMMSI := none
  , statsCount := 0
  , statsLastReset := 0 }

/-! Basic lemmas about the JMap operations. -/

theorem mapHas_cons {α : Type} (p : ℕ × α) (m : JMap α) (k : ℕ) :
    mapHas (p :: m) k = (p.1 == k || mapHas m k) := by
  simp [mapHas, List.any]

theorem mapGet_cons {α : Type} (p : ℕ × α) (m : JMap α) (k : ℕ) :
    mapGet (p :: m) k = if p.1 == k then some p.2 else mapGet m k := by
  by_cases h : p.1 == k <;> simp [mapGet, List.find?, h]

theorem mapGet_of_has {α : Type} (m : JMap α) (k : ℕ)
    (h : mapHas m k = true) : ∃ v, mapGet m k = some v := by
  induction m with
  | nil => simp [mapHas] at h
  | cons p rest ih =>
    rw [mapHas_cons] at h
    rw [mapGet_cons]
    cases hp : (p.1 == k) with
    | true => exact ⟨p.2, by simp⟩
    | false =>
      simp only [hp, Bool.false_or] at h
      simpa [hp] using ih h

theorem mapGet_replace_self {α : Type} (m : JMap α) (k : ℕ) (v : α) :
    mapGet (m.map (fun p => if p.1 == k then (k, v) else p)) k
      = (mapGet m k).map (fun _ => v) := by
  induction m with
  | nil => simp [mapGet]
  | cons p rest ih =>
    simp only [beq_iff_eq] at ih
    by_cases hp : p.1 = k
    · simp [mapGet_cons, hp]
    · simp [mapGet_cons, hp, ih]

theorem mapGet_replace_ne {α : Type} (m : JMap α) (k k' : ℕ) (v : α) (h : k' ≠ k) :
    mapGet (m.map (fun p => if p.1 == k then (k, v) else p)) k' = mapGet m k' := by
  have h1 : (k == k') = false := beq_eq_false_iff_ne.mpr (Ne.symm h)
  induction m with
  | nil => simp [mapGet]
  | cons p rest ih =>
    simp only [beq_iff_eq] at ih
    by_cases hp : p.1 = k
    · have h2 : ¬p.1 = k' := by rw [hp]; exact Ne.symm h
      simp [mapGet_cons, hp, Ne.symm h, h2, ih]
    · by_cases h2 : p.1 = k' <;> simp [mapGet_cons, hp, h2, h, ih]

theorem keys_replace {α : Type} (m : JMap α) (k : ℕ) (v : α) :
    (m.map (fun p => if p.1 == k then (k, v) else p)).map Prod.fst = m.map Prod.fst := by
  rw [List.map_map]
  apply List.map_congr_left
  intro p _
  cases hp : (p.1 == k) with
  | true =>
    have hpk : p.1 = k := by simpa using hp
    simp [Function.comp, hp, hpk]
  | false => simp [Function.comp, hp]

theorem mapHas_eq_keys {α : Type} (m : JMap α) (k : ℕ) :
    mapHas m k = (m.map Prod.fst).any (fun x => x == k) := by
  induction m with
  | nil => rfl
  | cons p rest ih =>
    rw [mapHas_cons, ih]
    rfl

theorem mapHas_replace {α : Type} (m : JMap α) (k k' : ℕ) (v : α) :
    mapHas (m.map (fun p => if p.1 == k then (k, v) else p)) k' = mapHas m k' := by
  rw [mapHas_eq_keys, mapHas_eq_keys, keys_replace]

theorem find?_eq_none_of_not_has {α : Type} (m : JMap α) (k : ℕ)
    (h : mapHas m k = false) : m.find? (fun p => p.1 == k) = none := by
  rw [List.find?_eq_none]
  intro x hx hc
  have hh : mapHas m k = true := by
    simp only [mapHas, List.any_eq_true]
    exact ⟨x, hx, hc⟩
  rw [hh] at h
  simp at h

theorem mapGet_append_single_self {α : Type} (m : JMap α) (k : ℕ) (v : α)
    (h : mapHas m k = false) : mapGet (m ++ [(k, v)]) k = some v := by
  simp [mapGet, List.find?_append, find?_eq_none_of_not_has m k h, List.find?]

theorem mapGet_append_single_ne {α : Type} (m : JMap α) (k k' : ℕ) (v : α) (h : k' ≠ k) :
    mapGet (m ++ [(k, v)]) k' = mapGet m k' := by
  have h1 : (k == k') = false := beq_eq_false_iff_ne.mpr (Ne.symm h)
  cases hf : m.find? (fun p => p.1 == k') with
  | none => simp [mapGet, List.find?_append, hf, List.find?, h1]
  | some p => simp [mapGet, List.find?_append, hf]

theorem mapHas_append_single {α : Type} (m : JMap α) (k k' : ℕ) (v : α) :
    mapHas (m ++ [(k, v)]) k' = (mapHas m k' || k == k') := by
  simp [mapHas, List.any_append]

theorem mapGet_mapSet_self {α : Type} (m : JMap α) (k : ℕ) (v : α) :
    mapGet (mapSet m k v) k = some v := by
  unfold mapSet
  cases h : mapHas m k with
  | true =>
    rcases mapGet_of_has m k h with ⟨w, hw⟩
    rw [if_pos rfl, mapGet_replace_self, hw]
    rfl
  | false =>
    rw [if_neg (by simp)]
    exact mapGet_append_single_self m k v h

theorem mapGet_mapSet_ne {α : Type} (m : JMap α) (k k' : ℕ) (v : α) (h : k' ≠ k) :
    mapGet (mapSet m k v) k' = mapGet m k' := by
  unfold mapSet
  cases hh : mapHas m k with
  | true =>
    rw [if_pos rfl]
    exact mapGet_replace_ne m k k' v h
  | false =>
    rw [if_neg (by simp)]
    exact mapGet_append_single_ne m k k' v h

theorem mapHas_mapSet {α : Type} (m : JMap α) (k k' : ℕ) (v : α) :
    mapHas (mapSet m k v) k' = (mapHas m k' || k == k') := by
  unfold mapSet
  cases hh : mapHas m k with
  | true =>
    rw [if_pos rfl, mapHas_replace]
    cases hkk : (k == k') with
    | true =>
      have hk : k = k' := by simpa using hkk
      rw [← hk, hh]
      simp
    | false => simp
  | false =>
    rw [if_neg (by simp)]
    exact mapHas_append_single m k k' v

/-! Lemmas about the tracker operations. -/

theorem updateMarker_eq (st : TrackerState) (v : VesselRecord) :
    updateMarker st v = { st with markers := mapSet st.markers v.mmsi (markerAfter st v) } := by
  cases h : mapGet st.markers v.mmsi <;> simp [updateMarker, markerAfter, h]

theorem updateMarker_vessels (st : TrackerState) (v : VesselRecord) :
    (updateMarker st v).vessels = st.vessels := by
  rw [updateMarker_eq]

theorem updateMarker_selected (st : TrackerState) (v : VesselRecord) :
    (updateMarker st v).selectedVesselMMSI = st.selectedVesselMMSI := by
  rw [updateMarker_eq]

theorem updateMarker_statsCount (st : TrackerState) (v : VesselRecord) :
    (updateMarker st v).statsCount = st.statsCount := by
  rw [updateMarker_eq]

theorem markerAfter_lat (st : TrackerState) (v : VesselRecord) :
    (markerAfter st v).lat = v.latitude := by
  cases h : mapGet st.markers v.mmsi <;> simp [markerAfter, h]

theorem markerAfter_lon (st : TrackerState) (v : VesselRecord) :
    (markerAfter st v).lon = v.longitude := by
  cases h : mapGet st.markers v.mmsi <;> simp [markerAfter, h]

theorem updateMarkersBatch_vessels (st : TrackerState) (l : List VesselRecord) :
    (updateMarkersBatch st l).vessels = st.vessels := by
  induction l generalizing st with
  | nil => rfl
  | cons v rest ih =>
    rw [updateMarkersBatch, List.foldl_cons]
    rw [show List.foldl updateMarker (updateMarker st v) rest
        = updateMarkersBatch (updateMarker st v) rest from rfl]
    rw [ih, updateMarker_vessels]

theorem updateMarkersBatch_selected (st : TrackerState) (l : List VesselRecord) :
    (updateMarkersBatch st l).selectedVesselMMSI = st.selectedVesselMMSI := by
  induction l generalizing st with
  | nil => rfl
  | cons v rest ih =>
    rw [updateMarkersBatch, List.foldl_cons]
    rw [show List.foldl updateMarker (updateMarker st v) rest
        = updateMarkersBatch (updateMarker st v) rest from rfl]
    rw [ih, updateMarker_selected]

theorem updateMarkersBatch_statsCount (st : TrackerState) (l : List VesselRecord) :
    (updateMarkersBatch st l).statsCount = st.statsCount := by
  induction l generalizing st with
  | nil => rfl
  | cons v rest ih =>
    rw [updateMarkersBatch, List.foldl_cons]
    rw [show List.foldl updateMarker (updateMarker st v) rest
        = updateMarkersBatch (updateMarker st v) rest from rfl]
    rw [ih, updateMarker_statsCount]

theorem upsertFold_components (st : TrackerState) (vs : List VesselRecord) :
    (vs.foldl (fun s vessel => { s with vessels := mapSet s.vessels vessel.mmsi vessel }) st).vessels
        = upsertAll st.vessels vs
    ∧ (vs.foldl (fun s vessel => { s with vessels := mapSet s.vessels vessel.mmsi vessel }) st).markers
        = st.markers
    ∧ (vs.foldl (fun s vessel => { s with vessels := mapSet s.vessels vessel.mmsi vessel }) st).selectedVesselMMSI
        = st.selectedVesselMMSI
    ∧ (vs.foldl (fun s vessel => { s with vessels := mapSet s.vessels vessel.mmsi vessel }) st).statsCount
        = st.statsCount := by
  induction vs generalizing st with
  | nil => exact ⟨rfl, rfl, rfl, rfl⟩
  | cons v rest ih =>
    rcases ih { st with vessels := mapSet st.vessels v.mmsi v } with ⟨h1, h2, h3, h4⟩
    exact ⟨h1, h2, h3, h4⟩

theorem processBatchUpdate_vessels (st : TrackerState) (vs : List VesselRecord) :
    (processBatchUpdate st vs).vessels = upsertAll st.vessels vs := by
  unfold processBatchUpdate
  rw [updateMarkersBatch_vessels]
  exact (upsertFold_components st vs).1

theorem processBatchUpdate_selected (st : TrackerState) (vs : List VesselRecord) :
    (processBatchUpdate st vs).selectedVesselMMSI = st.selectedVesselMMSI := by
  unfold processBatchUpdate
  rw [updateMarkersBatch_selected]
  exact (upsertFold_components st vs).2.2.1

theorem processBatchUpdate_statsCount (st : TrackerState) (vs : List VesselRecord) :
    (processBatchUpdate st vs).statsCount = st.statsCount := by
  unfold processBatchUpdate
  rw [updateMarkersBatch_statsCount]
  exact (upsertFold_components st vs).2.2.2

theorem updateVessel_statsCount (st : TrackerState) (v : VesselRecord) :
    (updateVessel st v).statsCount = st.statsCount := by
  unfold updateVessel
  by_cases h : (v.latitude.truthy && v.longitude.truthy) = true
  · simp only [h, if_true]
    rw [updateMarker_statsCount]
  · simp [h]

theorem processBatchUpdate_singleton (st : TrackerState) (r : VesselRecord) :
    processBatchUpdate st [r] =
      (if isPlottable r then
        updateMarker { st with vessels := mapSet st.vessels r.mmsi r } r
      else { st with vessels := mapSet st.vessels r.mmsi r }) := by
  cases h : isPlottable r <;>
    simp [processBatchUpdate, updateMarkersBatch, List.filter, h]

/-- Claim C1 (counterexample): updateVessel is not equivalent to a batch
of size one.  For a record sitting on the equator (latitude 0, a falsy
but plottable coordinate), updateVessel creates no marker while
processBatchUpdate of the one-element batch does. -/
theorem c1_counterexample :
    mapHas (updateVessel initialState rEquator).markers 7 = false
    ∧ mapHas (processBatchUpdate initialState [rEquator]).markers 7 = true := by
  constructor <;> decide

/-- Claim C1 (amended): updateVessel and processBatchUpdate of the
one-element batch always agree on the vessel registry, and agree on the
whole tracker state whenever the JS truthiness test on the two
coordinates coincides with the plottability test, in particular for
records whose coordinates are nonzero in-range finite numbers. -/
theorem c1_legacy_vs_batch :
    (∀ (st : TrackerState) (r : VesselRecord),
      (updateVessel st r).vessels = (processBatchUpdate st [r]).vessels)
    ∧ ∀ (st : TrackerState) (r : VesselRecord),
        (r.latitude.truthy && r.longitude.truthy) = isPlottable r →
        updateVessel st r = processBatchUpdate st [r] := by
  constructor
  · intro st r
    rw [processBatchUpdate_vessels]
    unfold updateVessel
    have hu : upsertAll st.vessels [r] = mapSet st.vessels r.mmsi r := rfl
    by_cases h : (r.latitude.truthy && r.longitude.truthy) = true
    · simp only [h, if_true]
      rw [updateMarker_vessels, hu]
    · simp [h, hu]
  · intro st r h
    rw [processBatchUpdate_singleton]
    unfold updateVessel
    cases hp : isPlottable r with
    | true =>
      rw [hp] at h
      simp [h]
    | false =>
      rw [hp] at h
      simp [h]

/-- Claim C1 (witness): concrete instance of the amended equivalence at a
record with nonzero in-range coordinates. -/
theorem c1_witness :
    ((rIsland.latitude.truthy && rIsland.longitude.truthy) = isPlottable rIsland)
    ∧ updateVessel initialState rIsland = processBatchUpdate initialState [rIsland] :=
  ⟨by decide, c1_legacy_vs_batch.2 initialState rIsland (by decide)⟩

/-- Claim C3: a record is classified plottable by batch reconciliation
iff both coordinates are present finite numbers (hence not NaN) within
the ranges plus-minus 90 and plus-minus 180; the boundary values are
plottable and values just beyond them are not. -/
theorem c3_isPlottable_iff :
    (∀ r : VesselRecord, isPlottable r = true ↔
      ((∃ x, r.latitude = JSVal.num x ∧ -90 ≤ x ∧ x ≤ 90) ∧
       (∃ y, r.longitude = JSVal.num y ∧ -180 ≤ y ∧ y ≤ 180)))
    ∧ isPlottable (mkRecord 1 (.num 90) (.num 180) none) = true
    ∧ isPlottable (mkRecord 1 (.num (-90)) (.num (-180)) none) = true
    ∧ isPlottable (mkRecord 1 (.num (900001/10000)) (.num 0) none) = false
    ∧ isPlottable (mkRecord 1 (.num (-900001/10000)) (.num 0) none) = false
    ∧ isPlottable (mkRecord 1 (.num 0) (.num (1800001/10000)) none) = false
    ∧ isPlottable (mkRecord 1 (.num 0) (.num (-1800001/10000)) none) = false := by
  refine ⟨?_, by decide, by decide, ?_, ?_, ?_, ?_⟩
  · intro r
    cases hl : r.latitude <;> cases ho : r.longitude <;>
      simp [isPlottable, hl, ho, jsNotNull, jsIsNumberType, jsIsNaN, jsGe, jsLe, and_assoc]
  · simp [isPlottable, mkRecord, jsNotNull, jsIsNumberType, jsIsNaN, jsGe, jsLe]
    norm_num
  · simp [isPlottable, mkRecord, jsNotNull, jsIsNumberType, jsIsNaN, jsGe, jsLe]
    norm_num
  · simp [isPlottable, mkRecord, jsNotNull, jsIsNumberType, jsIsNaN, jsGe, jsLe]
    norm_num
  · simp [isPlottable, mkRecord, jsNotNull, jsIsNumberType, jsIsNaN, jsGe, jsLe]
    norm_num

theorem lastUpsert_acc (id : ℕ) (rs : List VesselRecord) (a : Option VesselRecord) :
    rs.foldl (fun acc r => if r.mmsi == id then some r else acc) a
      = (lastUpsert rs id).or a := by
  induction rs generalizing a with
  | nil => simp [lastUpsert]
  | cons r rest ih =>
    rw [lastUpsert, List.foldl_cons, List.foldl_cons, ih]
    rw [show rest.foldl (fun acc r => if r.mmsi == id then some r else acc)
          (if r.mmsi == id then some r else none)
        = (lastUpsert rest id).or (if r.mmsi == id then some r else none) from ih _]
    cases hl : lastUpsert rest id with
    | some w => rfl
    | none =>
      cases hr : (r.mmsi == id) <;> simp

theorem mapGet_upsertAll (rs : List VesselRecord) (m : JMap VesselRecord) (id : ℕ) :
    mapGet (upsertAll m rs) id = (lastUpsert rs id).or (mapGet m id) := by
  induction rs generalizing m with
  | nil => simp [upsertAll, lastUpsert]
  | cons r rest ih =>
    rw [show upsertAll m (r :: rest) = upsertAll (upsertRecord m r) rest from rfl]
    rw [ih]
    have hstep : mapGet (upsertRecord m r) id
        = (if r.mmsi == id then some r else none).or (mapGet m id) := by
      cases hr : (r.mmsi == id) with
      | true =>
        have : r.mmsi = id := by simpa using hr
        rw [← this]
        simp [upsertRecord, mapGet_mapSet_self]
      | false =>
        have : id ≠ r.mmsi := by
          intro hc
          rw [hc] at hr
          simp at hr
        simp [upsertRecord, mapGet_mapSet_ne m r.mmsi id r this]
    have hcons : lastUpsert (r :: rest) id
        = (lastUpsert rest id).or (if r.mmsi == id then some r else none) := by
      rw [lastUpsert, List.foldl_cons]
      exact lastUpsert_acc id rest _
    rw [hstep, hcons]
    cases hl : lastUpsert rest id with
    | some w => rfl
    | none => rfl

theorem keys_mapSet_nodup {α : Type} (m : JMap α) (k : ℕ) (v : α)
    (h : (m.map Prod.fst).Nodup) : ((mapSet m k v).map Prod.fst).Nodup := by
  unfold mapSet
  cases hh : mapHas m k with
  | true =>
    rw [if_pos rfl, keys_replace]
    exact h
  | false =>
    rw [if_neg (by simp), List.map_append]
    rw [List.nodup_append]
    refine ⟨h, List.nodup_singleton k, ?_⟩
    intro x hx
    simp only [List.map_cons, List.map_nil, List.mem_singleton]
    intro hc
    rw [hc] at hx
    have : mapHas m k = true := by
      rw [mapHas_eq_keys]
      simp only [List.any_eq_true]
      exact ⟨k, hx, by simp⟩
    rw [this] at hh
    simp at hh

theorem keys_upsertAll_nodup (rs : List VesselRecord) (m : JMap VesselRecord)
    (h : (m.map Prod.fst).Nodup) : ((upsertAll m rs).map Prod.fst).Nodup := by
  induction rs generalizing m with
  | nil => exact h
  | cons r rest ih =>
    exact ih (mapSet m r.mmsi r) (keys_mapSet_nodup m r.mmsi r h)

/-- Claim C7: starting from the empty registry, upserting any sequence of
records and reading any id returns exactly the last record upserted with
that id (full replacement, no field-level merge), and the registry keeps
exactly one entry per id. -/
theorem c7_upsert_last_wins :
    ∀ (rs : List VesselRecord) (id : ℕ),
      mapGet (upsertAll [] rs) id = lastUpsert rs id
      ∧ ((upsertAll ([] : JMap VesselRecord) rs).map Prod.fst).Nodup := by
  intro rs id
  constructor
  · rw [mapGet_upsertAll]
    cases hl : lastUpsert rs id with
    | some w => rfl
    | none => rfl
  · exact keys_upsertAll_nodup rs [] (by simp)

theorem updateMarkersBatch_has_mono (st : TrackerState) (l : List VesselRecord) (k : ℕ)
    (h : mapHas st.markers k = true) :
    mapHas (updateMarkersBatch st l).markers k = true := by
  induction l generalizing st with
  | nil => exact h
  | cons v rest ih =>
    rw [updateMarkersBatch, List.foldl_cons]
    rw [show List.foldl updateMarker (updateMarker st v) rest
        = updateMarkersBatch (updateMarker st v) rest from rfl]
    apply ih
    rw [updateMarker_eq]
    simp only [mapHas_mapSet, h, Bool.true_or]

theorem processBatchUpdate_has_mono (st : TrackerState) (vs : List VesselRecord) (k : ℕ)
    (h : mapHas st.markers k = true) :
    mapHas (processBatchUpdate st vs).markers k = true := by
  unfold processBatchUpdate
  apply updateMarkersBatch_has_mono
  rw [(upsertFold_components st vs).2.1]
  exact h

/-- Claim C8: when a vessel's first processed update is plottable and its
second is not, the marker created by the first update survives the second
one and keeps the first update's position, while the registry holds the
second record; more generally batch processing never removes a marker. -/
theorem c8_stale_marker (st : TrackerState) (r1 r2 : VesselRecord)
    (hm : r2.mmsi = r1.mmsi)
    (h1 : isPlottable r1 = true) (h2 : isPlottable r2 = false)
    (st' : TrackerState) (vs : List VesselRecord) (k : ℕ)
    (hk : mapHas st'.markers k = true) :
    (mapGet (processBatchUpdate (processBatchUpdate st [r1]) [r2]).markers r1.mmsi).map Marker.lat
        = some r1.latitude
    ∧ (mapGet (processBatchUpdate (processBatchUpdate st [r1]) [r2]).markers r1.mmsi).map Marker.lon
        = some r1.longitude
    ∧ mapGet (processBatchUpdate (processBatchUpdate st [r1]) [r2]).vessels r1.mmsi = some r2
    ∧ mapHas (processBatchUpdate st' vs).markers k = true := by
  have hb1 : processBatchUpdate st [r1]
      = updateMarker { st with vessels := mapSet st.vessels r1.mmsi r1 } r1 := by
    rw [processBatchUpdate_singleton, if_pos h1]
  have hb2 : ∀ s, processBatchUpdate s [r2]
      = { s with vessels := mapSet s.vessels r2.mmsi r2 } := by
    intro s
    rw [processBatchUpdate_singleton, if_neg (by simp [h2])]
  have hmk : (processBatchUpdate (processBatchUpdate st [r1]) [r2]).markers
      = mapSet st.markers r1.mmsi
          (markerAfter { st with vessels := mapSet st.vessels r1.mmsi r1 } r1) := by
    rw [hb1, hb2, updateMarker_eq]
  have hget : mapGet (processBatchUpdate (processBatchUpdate st [r1]) [r2]).markers r1.mmsi
      = some (markerAfter { st with vessels := mapSet st.vessels r1.mmsi r1 } r1) := by
    rw [hmk, mapGet_mapSet_self]
  refine ⟨?_, ?_, ?_, processBatchUpdate_has_mono st' vs k hk⟩
  · rw [hget]
    simp [markerAfter_lat]
  · rw [hget]
    simp [markerAfter_lon]
  · rw [hb2, hb1]
    simp only [updateMarker_eq]
    rw [hm, mapGet_mapSet_self]

/-- Claim C8 (witness): concrete instance with a first update at
coordinates (10, 20) and a second update with both coordinates absent. -/
theorem c8_witness :
    rLost.mmsi = rIsland.mmsi
    ∧ isPlottable rIsland = true
    ∧ isPlottable rLost = false
    ∧ mapHas (processBatchUpdate initialState [rIsland]).markers 7 = true
    ∧ ((mapGet (processBatchUpdate (processBatchUpdate initialState [rIsland]) [rLost]).markers
          rIsland.mmsi).map Marker.lat = some rIsland.latitude
      ∧ (mapGet (processBatchUpdate (processBatchUpdate initialState [rIsland]) [rLost]).markers
          rIsland.mmsi).map Marker.lon = some rIsland.longitude
      ∧ mapGet (processBatchUpdate (processBatchUpdate initialState [rIsland]) [rLost]).vessels
          rIsland.mmsi = some rLost
      ∧ mapHas (processBatchUpdate (processBatchUpdate initialState [rIsland]) [rLost]).markers 7
          = true) :=
  ⟨by decide, by decide, by decide, by decide,
   c8_stale_marker initialState rIsland rLost (by decide) (by decide) (by decide)
     (processBatchUpdate initialState [rIsland]) [rLost] 7 (by decide)⟩

theorem foldl_best_ge (l : List (String × ℕ)) (b : String × ℕ) :
    b.2 ≤ (l.foldl (fun best e => if e.2 > best.2 then e else best) b).2
    ∧ ∀ e ∈ l, e.2 ≤ (l.foldl (fun best e => if e.2 > best.2 then e else best) b).2 := by
  induction l generalizing b with
  | nil => exact ⟨le_refl _, by simp⟩
  | cons e rest ih =>
    rw [List.foldl_cons]
    rcases ih (if e.2 > b.2 then e else b) with ⟨h1, h2⟩
    have hb : b.2 ≤ (if e.2 > b.2 then e else b).2 := by
      split_ifs with hgt
      · exact le_of_lt hgt
      · exact le_refl _
    have he : e.2 ≤ (if e.2 > b.2 then e else b).2 := by
      split_ifs with hgt
      · exact le_refl _
      · omega
    refine ⟨le_trans hb h1, ?_⟩
    intro f hf
    rcases List.mem_cons.mp hf with rfl | hf2
    · exact le_trans he h1
    · exact h2 f hf2

theorem foldl_best_mem (l : List (String × ℕ)) (b : String × ℕ) :
    (l.foldl (fun best e => if e.2 > best.2 then e else best) b) = b
    ∨ (l.foldl (fun best e => if e.2 > best.2 then e else best) b) ∈ l := by
  induction l generalizing b with
  | nil => exact Or.inl rfl
  | cons e rest ih =>
    rw [List.foldl_cons]
    rcases ih (if e.2 > b.2 then e else b) with h | h
    · rw [h]
      split_ifs with hgt
      · exact Or.inr (List.mem_cons_self e rest)
      · exact Or.inl rfl
    · exact Or.inr (List.mem_cons_of_mem e h)

theorem dominantStatus_max (sc : StatusCounts) :
    ∀ e ∈ statusEntries sc, e.2 ≤ (dominantStatus sc).2 :=
  (foldl_best_ge (statusEntries sc) ("unknown", 0)).2

theorem dominantStatus_mem (sc : StatusCounts) :
    dominantStatus sc ∈ statusEntries sc := by
  rcases foldl_best_mem (statusEntries sc) ("unknown", 0) with h | h
  · rw [dominantStatus, h]
    have hk : sc.unknown ≤ (dominantStatus sc).2 :=
      dominantStatus_max sc ("unknown", sc.unknown) (by simp [statusEntries])
    rw [dominantStatus, h] at hk
    have : sc.unknown = 0 := Nat.le_zero.mp hk
    rw [statusEntries, this]
    simp
  · rw [dominantStatus]
    exact h

/-- Claim C4: the derived cluster icon's dominant category attains the
maximum member count among the six categories (with the deterministic
first-strictly-greater tie-break of the fold), the size tier is small
below 10, medium below 50, large below 100 and mega otherwise, the label
is the count below 100 and the count suffixed with a plus sign from 100
up; a cluster of 12 markers with 7 underway and 5 moored yields dominant
category underway (count 7), the medium tier, and the label 12. -/
theorem c4_cluster_icon :
    (∀ (vessels : JMap VesselRecord) (members : List Marker),
      ((statusEntries (tallyStatuses vessels members)).all
        (fun e => decide (e.2 ≤ (dominantStatus (tallyStatuses vessels members)).2))) = true)
    ∧ (∀ (vessels : JMap VesselRecord) (members : List Marker),
      (statusEntries (tallyStatuses vessels members)).contains
        (dominantStatus (tallyStatuses vessels members)) = true)
    ∧ (∀ (vessels : JMap VesselRecord) (members : List Marker),
      (createClusterIcon vessels members).className =
        (if members.length < 10 then "marker-cluster-small"
         else if members.length < 50 then "marker-cluster-medium"
         else if members.length < 100 then "marker-cluster-large"
         else "marker-cluster-mega"))
    ∧ (∀ (vessels : JMap VesselRecord) (members : List Marker),
      (createClusterIcon vessels members).label =
        (if 100 ≤ members.length then toString members.length ++ "+"
         else toString members.length))
    ∧ dominantStatus (tallyStatuses vessels12 markers12) = ("underway", 7)
    ∧ (createClusterIcon vessels12 markers12).className = "marker-cluster-medium"
    ∧ (createClusterIcon vessels12 markers12).label = "12" := by
  refine ⟨?_, ?_, ?_, ?_, by decide, by decide, by decide⟩
  · intro vessels members
    rw [List.all_eq_true]
    intro e he
    simpa using dominantStatus_max (tallyStatuses vessels members) e he
  · intro vessels members
    rw [List.contains_iff_exists_mem_beq]
    exact ⟨dominantStatus (tallyStatuses vessels members),
      dominantStatus_mem (tallyStatuses vessels members), by simp⟩
  · intro vessels members
    dsimp only [createClusterIcon]
    split_ifs <;> rfl
  · intro vessels members
    dsimp only [createClusterIcon]

theorem mapHas_of_mapGet' {α : Type} (m : JMap α) (k : ℕ) (v : α)
    (h : mapGet m k = some v) : mapHas m k = true := by
  induction m with
  | nil => simp [mapGet, List.find?] at h
  | cons p rest ih =>
    rw [mapGet_cons] at h
    rw [mapHas_cons]
    cases hp : (p.1 == k) with
    | true => simp
    | false =>
      rw [hp] at h
      simp only [Bool.false_eq_true, if_false] at h
      simp [ih h]

theorem setMarkerIcon_selected (st : TrackerState) (k : ℕ) (i : VesselIcon) :
    (setMarkerIcon st k i).selectedVesselMMSI = st.selectedVesselMMSI := by
  cases h : mapGet st.markers k <;> simp [setMarkerIcon, h]

theorem setMarkerIcon_vessels (st : TrackerState) (k : ℕ) (i : VesselIcon) :
    (setMarkerIcon st k i).vessels = st.vessels := by
  cases h : mapGet st.markers k <;> simp [setMarkerIcon, h]

theorem setMarkerIcon_statsCount (st : TrackerState) (k : ℕ) (i : VesselIcon) :
    (setMarkerIcon st k i).statsCount = st.statsCount := by
  cases h : mapGet st.markers k <;> simp [setMarkerIcon, h]

theorem setMarkerIcon_has (st : TrackerState) (k : ℕ) (i : VesselIcon) (k' : ℕ) :
    mapHas (setMarkerIcon st k i).markers k' = mapHas st.markers k' := by
  cases h : mapGet st.markers k with
  | none => simp [setMarkerIcon, h]
  | some m =>
    simp only [setMarkerIcon, h, mapHas_mapSet]
    cases hk : (k == k') with
    | true =>
      have hk2 : k = k' := by simpa using hk
      rw [← hk2, mapHas_of_mapGet' st.markers k m h]
      simp
    | false => simp

theorem setMarkerIcon_get_ne (st : TrackerState) (k : ℕ) (i : VesselIcon) (k' : ℕ)
    (h : k' ≠ k) :
    mapGet (setMarkerIcon st k i).markers k' = mapGet st.markers k' := by
  cases hm : mapGet st.markers k with
  | none => simp [setMarkerIcon, hm]
  | some m => simp [setMarkerIcon, hm, mapGet_mapSet_ne st.markers k k' _ h]

theorem setMarkerIcon_get_self (st : TrackerState) (k : ℕ) (i : VesselIcon) (m : Marker)
    (h : mapGet st.markers k = some m) :
    mapGet (setMarkerIcon st k i).markers k = some { m with icon := i } := by
  simp [setMarkerIcon, h, mapGet_mapSet_self]

theorem selectVessel_selected (st : TrackerState) (mmsi : ℕ) :
    (selectVessel st mmsi).selectedVesselMMSI = some mmsi := by
  simp only [selectVessel]
  repeat' split
  all_goals simp [setMarkerIcon_selected]

/-- Claim C2 (counterexample): selecting an id that is absent from the
registry while vessel 1 is selected updates the selection but leaves
vessel 1's marker showing the selected icon, because the restore of the
previous marker only runs when the new vessel exists with truthy
coordinates. -/
theorem c2_counterexample :
    (selectVessel stSelCx 2).selectedVesselMMSI = some 2
    ∧ (mapGet (selectVessel stSelCx 2).markers 1).map Marker.icon ≠
        some (createVesselIcon (headingOr0 recA.heading)
          (jsOrStr recA.status_category "unknown") false) := by
  constructor <;> decide

/-- Claim C2 (amended): if vessel A (with truthy, i.e. nonzero, id) is
selected with a marker and a registry entry, then after selectVessel(B)
for B distinct from A whose record exists with truthy coordinates, the
selection is exactly B and A's marker carries the icon derived with
isSelected false. -/
theorem c2_select_switch (st : TrackerState) (A B : ℕ) (av bv : VesselRecord)
    (hsel : st.selectedVesselMMSI = some A)
    (hA0 : A ≠ 0)
    (hma : mapHas st.markers A = true)
    (hva : mapGet st.vessels A = some av)
    (hBA : B ≠ A)
    (hvb : mapGet st.vessels B = some bv)
    (hlat : bv.latitude.truthy = true) (hlon : bv.longitude.truthy = true) :
    (selectVessel st B).selectedVesselMMSI = some B
    ∧ (mapGet (selectVessel st B).markers A).map Marker.icon
        = some (createVesselIcon (headingOr0 av.heading)
            (jsOrStr av.status_category "unknown") false) := by
  refine ⟨selectVessel_selected st B, ?_⟩
  rcases mapGet_of_has st.markers A hma with ⟨mA, hmA⟩
  have hsv : selectVessel st B
      = (let st0 : TrackerState := { st with selectedVesselMMSI := some B }
         let st1 := setMarkerIcon st0 A
           (createVesselIcon (headingOr0 av.heading)
             (jsOrStr av.status_category "unknown") false)
         if mapHas st1.markers B then
           setMarkerIcon st1 B
             (createVesselIcon (headingOr0 bv.heading)
               (jsOrStr bv.status_category "unknown") true)
         else st1) := by
    have hA0' : (A != 0) = true := by simpa using hA0
    simp only [selectVessel, hsel, hvb, hlat, hlon, hma, hva, hA0', Bool.and_self, if_true]
  rw [hsv]
  set st0 : TrackerState := { st with selectedVesselMMSI := some B } with hst0
  have hmA0 : mapGet st0.markers A = some mA := hmA
  have hget1 : mapGet (setMarkerIcon st0 A
      (createVesselIcon (headingOr0 av.heading)
        (jsOrStr av.status_category "unknown") false)).markers A
      = some { mA with
          icon := (createVesselIcon (headingOr0 av.heading)
            (jsOrStr av.status_category "unknown") false) } :=
    setMarkerIcon_get_self st0 A _ mA hmA0
  by_cases hB : mapHas (setMarkerIcon st0 A
      (createVesselIcon (headingOr0 av.heading)
        (jsOrStr av.status_category "unknown") false)).markers B = true
  · simp only [hB, if_true]
    rw [setMarkerIcon_get_ne _ B _ A (Ne.symm hBA), hget1]
    rfl
  · rw [if_neg hB, hget1]
    rfl

/-- Claim C2 (witness): concrete instance of the amended statement, with
vessel 1 selected and carrying a marker and vessel 2 registered with
truthy coordinates. -/
theorem c2_witness :
    stSel.selectedVesselMMSI = some 1
    ∧ (1 : ℕ) ≠ 0
    ∧ mapHas stSel.markers 1 = true
    ∧ mapGet stSel.vessels 1 = some recA
    ∧ (2 : ℕ) ≠ 1
    ∧ mapGet stSel.vessels 2 = some recB
    ∧ recB.latitude.truthy = true
    ∧ recB.longitude.truthy = true
    ∧ ((selectVessel stSel 2).selectedVesselMMSI = some 2
      ∧ (mapGet (selectVessel stSel 2).markers 1).map Marker.icon
          = some (createVesselIcon (headingOr0 recA.heading)
              (jsOrStr recA.status_category "unknown") false)) :=
  ⟨by decide, by decide, by decide, by decide, by decide, by decide, by decide, by decide,
   c2_select_switch stSel 1 2 recA recB (by decide) (by decide) (by decide) (by decide)
     (by decide) (by decide) (by decide) (by decide)⟩

/-- Claim C9 (counterexample): the initial snapshot event carries one
record but does not increase the update-rate window count, because only
the periodic batch handler calls trackUpdateRate. -/
theorem c9_counterexample :
    (handleEvent initialState (.initialVessels [rIsland])).statsCount
      ≠ initialState.statsCount + 1 := by
  decide

/-- Claim C9 (amended): only the periodic batch event increases the
window count, by the number of records it carries; the initial snapshot
and the legacy single update leave it unchanged; the one-second stats
tick resets the count and the window start exactly when at least ten
seconds have elapsed; and the monitor operations never touch the
registry, the marker set or the selection. -/
theorem c9_rate_monitor :
    (∀ (st : TrackerState) (vs : List VesselRecord),
      (handleEvent st (.vesselBatchUpdate vs)).statsCount = st.statsCount + vs.length)
    ∧ (∀ (st : TrackerState) (vs : List VesselRecord),
      (handleEvent st (.initialVessels vs)).statsCount = st.statsCount)
    ∧ (∀ (st : TrackerState) (v : VesselRecord),
      (handleEvent st (.vesselUpdate v)).statsCount = st.statsCount)
    ∧ (∀ (st : TrackerState) (now : ℚ),
      statsTick st now =
        (if 10 ≤ (now - st.statsLastReset) / 1000 then
          { st with statsCount := 0, statsLastReset := now }
        else st))
    ∧ (∀ (st : TrackerState) (n : ℕ),
      (trackUpdateRate st n).vessels = st.vessels
      ∧ (trackUpdateRate st n).markers = st.markers
      ∧ (trackUpdateRate st n).selectedVesselMMSI = st.selectedVesselMMSI)
    ∧ (∀ (st : TrackerState) (now : ℚ),
      (statsTick st now).vessels = st.vessels
      ∧ (statsTick st now).markers = st.markers
      ∧ (statsTick st now).selectedVesselMMSI = st.selectedVesselMMSI) := by
  refine ⟨?_, ?_, ?_, ?_, ?_, ?_⟩
  · intro st vs
    show (trackUpdateRate (processBatchUpdate st vs) vs.length).statsCount
        = st.statsCount + vs.length
    rw [trackUpdateRate, processBatchUpdate_statsCount]
  · intro st vs
    exact processBatchUpdate_statsCount st vs
  · intro st v
    exact updateVessel_statsCount st v
  · intro st now
    rfl
  · intro st n
    exact ⟨rfl, rfl, rfl⟩
  · intro st now
    simp only [statsTick]
    split_ifs <;> exact ⟨rfl, rfl, rfl⟩

theorem upsertAll_has_mono (m : JMap VesselRecord) (rs : List VesselRecord) (k : ℕ)
    (h : mapHas m k = true) : mapHas (upsertAll m rs) k = true := by
  induction rs generalizing m with
  | nil => exact h
  | cons r rest ih =>
    apply ih
    rw [upsertRecord, mapHas_mapSet, h]
    simp

theorem upsertAll_has_of_mem (rs : List VesselRecord) (r : VesselRecord) (hr : r ∈ rs) :
    ∀ m : JMap VesselRecord, mapHas (upsertAll m rs) r.mmsi = true := by
  induction rs with
  | nil => simp at hr
  | cons r0 rest ih =>
    intro m
    show mapHas (upsertAll (upsertRecord m r0) rest) r.mmsi = true
    rcases List.mem_cons.mp hr with heq | hmem
    · subst heq
      apply upsertAll_has_mono
      rw [upsertRecord, mapHas_mapSet]
      simp
    · exact ih hmem _

theorem updateMarkersBatch_has_sub (st : TrackerState) (l : List VesselRecord) (k : ℕ)
    (h : mapHas (updateMarkersBatch st l).markers k = true) :
    mapHas st.markers k = true ∨ k ∈ l.map VesselRecord.mmsi := by
  induction l generalizing st with
  | nil => exact Or.inl h
  | cons v rest ih =>
    rw [updateMarkersBatch, List.foldl_cons] at h
    rcases ih (updateMarker st v)
        (by rw [updateMarkersBatch]; exact h) with h1 | h1
    · rw [updateMarker_eq] at h1
      simp only [mapHas_mapSet] at h1
      rcases Bool.or_eq_true_iff.mp h1 with h2 | h2
      · exact Or.inl h2
      · right
        have : v.mmsi = k := by simpa using h2
        simp [this]
    · right
      simp [h1]

theorem selectVessel_vessels (st : TrackerState) (mmsi : ℕ) :
    (selectVessel st mmsi).vessels = st.vessels := by
  simp only [selectVessel]
  repeat' split
  all_goals simp [setMarkerIcon_vessels]

theorem selectVessel_has_markers (st : TrackerState) (mmsi k : ℕ) :
    mapHas (selectVessel st mmsi).markers k = mapHas st.markers k := by
  simp only [selectVessel]
  repeat' split
  all_goals simp [setMarkerIcon_has]

theorem statsTick_vessels (st : TrackerState) (now : ℚ) :
    (statsTick st now).vessels = st.vessels := by
  simp only [statsTick]
  split_ifs <;> rfl

theorem statsTick_markers (st : TrackerState) (now : ℚ) :
    (statsTick st now).markers = st.markers := by
  simp only [statsTick]
  split_ifs <;> rfl

theorem processBatchUpdate_inv (st : TrackerState) (vs : List VesselRecord)
    (ih : ∀ k, mapHas st.markers k = true → mapHas st.vessels k = true) :
    ∀ k, mapHas (processBatchUpdate st vs).markers k = true →
      mapHas (processBatchUpdate st vs).vessels k = true := by
  intro k hk
  rw [processBatchUpdate_vessels]
  unfold processBatchUpdate at hk
  rcases updateMarkersBatch_has_sub _ _ k hk with h1 | h1
  · rw [(upsertFold_components st vs).2.1] at h1
    exact upsertAll_has_mono st.vessels vs k (ih k h1)
  · rcases List.mem_map.mp h1 with ⟨r, hr, hrk⟩
    rw [← hrk]
    exact upsertAll_has_of_mem vs r (List.mem_of_mem_filter hr) st.vessels

theorem updateVessel_inv (st : TrackerState) (v : VesselRecord)
    (ih : ∀ k, mapHas st.markers k = true → mapHas st.vessels k = true) :
    ∀ k, mapHas (updateVessel st v).markers k = true →
      mapHas (updateVessel st v).vessels k = true := by
  intro k hk
  unfold updateVessel at hk ⊢
  by_cases ht : (v.latitude.truthy && v.longitude.truthy) = true
  · rw [if_pos ht] at hk ⊢
    rw [updateMarker_vessels]
    rw [updateMarker_eq] at hk
    simp only [mapHas_mapSet] at hk
    rcases Bool.or_eq_true_iff.mp hk with h2 | h2
    · rw [mapHas_mapSet, ih k h2]
      simp
    · have : v.mmsi = k := by simpa using h2
      rw [← this, mapHas_mapSet]
      simp
  · rw [if_neg ht] at hk ⊢
    rw [mapHas_mapSet, ih k hk]
    simp

/-- Claim C10: in every reachable tracker state, every id that has a
marker is present in the vessel registry. -/
theorem c10_marker_implies_registered (st : TrackerState) (h : Reachable st)
    (k : ℕ) (hk : mapHas st.markers k = true) : mapHas st.vessels k = true := by
  induction h generalizing k with
  | init => simp [initialState, mapHas] at hk
  | step op hst ih =>
    rename_i st0
    cases op with
    | inbound e =>
      cases e with
      | initialVessels vs => exact processBatchUpdate_inv st0 vs ih k hk
      | vesselBatchUpdate vs =>
        show mapHas (trackUpdateRate (processBatchUpdate st0 vs) vs.length).vessels k = true
        exact processBatchUpdate_inv st0 vs ih k hk
      | vesselUpdate v => exact updateVessel_inv st0 v ih k hk
      | statsUpdate => exact ih k hk
    | select mmsi =>
      show mapHas (selectVessel st0 mmsi).vessels k = true
      rw [selectVessel_vessels]
      apply ih
      rw [← selectVessel_has_markers st0 mmsi k]
      exact hk
    | tick now =>
      show mapHas (statsTick st0 now).vessels k = true
      rw [statsTick_vessels]
      apply ih
      rw [← statsTick_markers st0 now]
      exact hk

/-- Claim C10 (witness): after one batch with a plottable record, id 7
has a marker and the invariant yields its registry membership. -/
theorem c10_witness :
    mapHas (applyOp initialState (.inbound (.vesselBatchUpdate [rIsland]))).markers 7 = true
    ∧ mapHas (applyOp initialState (.inbound (.vesselBatchUpdate [rIsland]))).vessels 7 = true :=
  ⟨by decide,
   c10_marker_implies_registered _ (Reachable.step _ Reachable.init) 7 (by decide)⟩

/-- Claim C6: a burst of batch updates whose trigger times each arrive
strictly within the debounce window of the previous one produces exactly
one list render, and that render reads the tracker state after the last
batch of the burst. -/
theorem c6_debounce_burst (wait : ℕ) (st : TrackerState)
    (ts : List ℕ) (bs : List (List VesselRecord))
    (hne : ts ≠ [])
    (hlen : ts.length = bs.length)
    (hchain : List.Chain' (fun a b => b < a + wait) ts) :
    debounceRenders wait (burstEvents st ts bs) = [bs.foldl processBatchUpdate st] := by
  induction ts generalizing st bs with
  | nil => exact absurd rfl hne
  | cons t ts' ih =>
    cases bs with
    | nil => simp at hlen
    | cons b bs' =>
      cases ts' with
      | nil =>
        cases bs' with
        | nil => rfl
        | cons b2 bs'' => simp at hlen
      | cons t2 ts'' =>
        cases bs' with
        | nil => simp at hlen
        | cons b2 bs'' =>
          have hlt : t2 < t + wait := (List.chain'_cons.mp hchain).1
          have hchain' : List.Chain' (fun a b => b < a + wait) (t2 :: ts'') :=
            (List.chain'_cons.mp hchain).2
          have hlen' : (t2 :: ts'').length = (b2 :: bs'').length := by
            simpa using hlen
          show debounceRenders wait
              ((t, processBatchUpdate st b) ::
                burstEvents (processBatchUpdate st b) (t2 :: ts'') (b2 :: bs''))
            = [(b :: b2 :: bs'').foldl processBatchUpdate st]
          rw [show burstEvents (processBatchUpdate st b) (t2 :: ts'') (b2 :: bs'')
              = (t2, processBatchUpdate (processBatchUpdate st b) b2) ::
                burstEvents (processBatchUpdate (processBatchUpdate st b) b2) ts'' bs''
            from rfl]
          rw [debounceRenders, if_pos hlt]
          rw [show (t2, processBatchUpdate (processBatchUpdate st b) b2) ::
                burstEvents (processBatchUpdate (processBatchUpdate st b) b2) ts'' bs''
              = burstEvents (processBatchUpdate st b) (t2 :: ts'') (b2 :: bs'') from rfl]
          rw [ih (processBatchUpdate st b) (b2 :: bs'') (by simp) hlen' hchain']
          rfl

/-- Claim C6 (witness): two batches 100 ms apart under a 500 ms debounce
window render exactly once, with the state after the second batch. -/
theorem c6_witness :
    ([0, 100] : List ℕ) ≠ []
    ∧ ([0, 100] : List ℕ).length = [[rIsland], [rEquator]].length
    ∧ List.Chain' (fun a b => b < a + 500) ([0, 100] : List ℕ)
    ∧ debounceRenders 500 (burstEvents initialState [0, 100] [[rIsland], [rEquator]])
        = [([[rIsland], [rEquator]] : List (List VesselRecord)).foldl
            processBatchUpdate initialState] :=
  ⟨by decide, by decide, by simp [List.chain'_cons, List.chain'_singleton],
   c6_debounce_burst 500 initialState [0, 100] [[rIsland], [rEquator]]
     (by decide) (by decide) (by simp [List.chain'_cons, List.chain'_singleton])⟩

theorem updateVesselList_nil (st : TrackerState) (q : String) (h : st.vessels = []) :
    updateVesselList st q = { display := [], hasMore := false } := by
  unfold updateVesselList
  rw [if_pos]
  rw [h]
  rfl

theorem updateVesselList_eq (st : TrackerState) (q : String)
    (hq : q ≠ "") (hnz : st.vessels ≠ []) :
    updateVesselList st q =
      { display := ((List.insertionSort nameLe (mapValues st.vessels)).filter
          (fun v => matchesSearch v q)).take 150
      , hasMore := decide (150 <
          ((List.insertionSort nameLe (mapValues st.vessels)).filter
            (fun v => matchesSearch v q)).length) } := by
  unfold updateVesselList
  rw [if_neg (by simpa using hnz)]
  simp only [if_pos hq]

/-- Claim C5: with a non-empty search query the rendered list is exactly
the matching vessels, sorted case-insensitively by display name (missing
names sorting as Unknown), truncated to the first 150 rows, and the
overflow indicator is shown iff more than 150 vessels match. -/
theorem c5_list_render (st : TrackerState) (q : String) (hq : q ≠ "") :
    (updateVesselList st q).display
      = ((List.insertionSort nameLe (mapValues st.vessels)).filter
          (fun v => matchesSearch v q)).take 150
    ∧ ((updateVesselList st q).display.all (fun v => matchesSearch v q)) = true
    ∧ List.Sorted nameLe (updateVesselList st q).display
    ∧ (updateVesselList st q).display.length ≤ 150
    ∧ (updateVesselList st q).hasMore
        = decide (150 < ((mapValues st.vessels).filter (fun v => matchesSearch v q)).length) := by
  by_cases hz : st.vessels = []
  · rw [updateVesselList_nil st q hz, hz]
    refine ⟨rfl, rfl, List.Pairwise.nil, by simp, by simp [mapValues]⟩
  · rw [updateVesselList_eq st q hq hz]
    have hsorted : List.Sorted nameLe (List.insertionSort nameLe (mapValues st.vessels)) :=
      List.sorted_insertionSort nameLe (mapValues st.vessels)
    have hperm : ((List.insertionSort nameLe (mapValues st.vessels)).filter
          (fun v => matchesSearch v q)).length
        = ((mapValues st.vessels).filter (fun v => matchesSearch v q)).length :=
      ((List.perm_insertionSort nameLe (mapValues st.vessels)).filter _).length_eq
    refine ⟨rfl, ?_, ?_, ?_, ?_⟩
    · rw [List.all_eq_true]
      intro v hv
      have hvf := List.take_subset 150 _ hv
      exact of_decide_eq_true (by simpa using (List.mem_filter.mp hvf).2)
    · exact ((hsorted.filter _).sublist (List.take_sublist 150 _))
    · exact List.length_take_le 150 _
    · rw [hperm]

/-- Claim C5 (witness): concrete instance at a one-vessel registry whose
vessel matches the query al. -/
theorem c5_witness :
    ("al" : String) ≠ ""
    ∧ ((updateVesselList stList "al").display
        = ((List.insertionSort nameLe (mapValues stList.vessels)).filter
            (fun v => matchesSearch v "al")).take 150
      ∧ ((updateVesselList stList "al").display.all (fun v => matchesSearch v "al")) = true
      ∧ List.Sorted nameLe (updateVesselList stList "al").display
      ∧ (updateVesselList stList "al").display.length ≤ 150
      ∧ (updateVesselList stList "al").hasMore
          = decide (150 <
              ((mapValues stList.vessels).filter (fun v => matchesSearch v "al")).length)) :=
  ⟨by decide, c5_list_render stList "al" (by decide)⟩
